import Mathlib

/- Verification development for the two-service CEP-distance application
   (api_principal and api_secundaria).  The numeric distance code of
   api_secundaria is modelled over the real numbers; the request pipeline of
   api_principal is modelled as explicit state passing over an environment of
   remote-service oracles, with Python exceptions rendered as an explicit
   error type and string values modelled through executable character-list
   operations. -/

namespace Mvp2

/-! ## api_secundaria/app.py : haversine distance -/

/- Python `math.radians(x)` = x * pi / 180. -/
noncomputable def deg2rad (x : ℝ) : ℝ := x * (Real.pi / 180)

/- Source (api_secundaria/app.py, haversine_km): all four angular inputs are
   mapped through `radians`, then
   `a = sin(dlat/2)**2 + cos(lat1)*cos(lat2)*sin(dlon/2)**2`,
   `c = 2 * asin(sqrt(a))`, result `R * c` with `R = 6371.0`. -/
noncomputable def haversine_km (lat1 lon1 lat2 lon2 : ℝ) : ℝ :=
  let R : ℝ := 6371.0
  let lat1r := deg2rad lat1
  let lon1r := deg2rad lon1
  let lat2r := deg2rad lat2
  let lon2r := deg2rad lon2
  let dlat := lat2r - lat1r
  let dlon := lon2r - lon1r
  let a := Real.sin (dlat / 2) ^ 2 +
    Real.cos lat1r * Real.cos lat2r * Real.sin (dlon / 2) ^ 2
  let c := 2 * Real.arcsin (Real.sqrt a)
  R * c

/- Python `round(x, 3)`: rounding to 3 decimal places, modelled as rounding
   x*1000 to the nearest integer. -/
noncomputable def rnd3 (x : ℝ) : ℝ := (round (x * 1000) : ℝ) / 1000

/- Source (api_secundaria/app.py, calcular_distancia): on numeric inputs the
   handler computes `haversine_km` at full precision and reports
   `round(distancia, 3)` in the response body. -/
noncomputable def calcular_distancia_km (lat1 lon1 lat2 lon2 : ℝ) : ℝ :=
  rnd3 (haversine_km lat1 lon1 lat2 lon2)

/- Modelled from the formula text of the spec: `a = sin²(Δlat/2) +
   cos(lat1)·cos(lat2)·sin²(Δlon/2)`, `c = 2·asin(sqrt(a))`, `d = R·c`,
   R = 6371.0, "all angular inputs converted from degrees to radians before
   use" (here the coordinate differences are taken in degrees and then
   converted, the opposite order from the source). -/
noncomputable def haversineFormulaSpec (lat1 lon1 lat2 lon2 : ℝ) : ℝ :=
  let R : ℝ := 6371.0
  let dlat := deg2rad (lat2 - lat1)
  let dlon := deg2rad (lon2 - lon1)
  let a := Real.sin (dlat / 2) ^ 2 +
    Real.cos (deg2rad lat1) * Real.cos (deg2rad lat2) * Real.sin (dlon / 2) ^ 2
  let c := 2 * Real.arcsin (Real.sqrt a)
  R * c

lemma sin_sq_sub_swap (a b : ℝ) :
    Real.sin ((a - b) / 2) ^ 2 = Real.sin ((b - a) / 2) ^ 2 := by
  have h : (a - b) / 2 = -((b - a) / 2) := by ring
  rw [h, Real.sin_neg, neg_sq]

/-- C5: the distance computed by api_secundaria equals the haversine
formula of the spec with R = 6371.0 km and degree-to-radian conversion of all angular
inputs, and the reported value is that result rounded to 3 decimal places
while the internal computation keeps full precision. -/
theorem haversine_formula_correct (lat1 lon1 lat2 lon2 : ℝ) :
    haversine_km lat1 lon1 lat2 lon2 = haversineFormulaSpec lat1 lon1 lat2 lon2 ∧
    calcular_distancia_km lat1 lon1 lat2 lon2 =
      rnd3 (haversine_km lat1 lon1 lat2 lon2) := by
  constructor
  · show haversine_km lat1 lon1 lat2 lon2 = haversineFormulaSpec lat1 lon1 lat2 lon2
    simp only [haversine_km, haversineFormulaSpec, deg2rad]
    ring_nf
  · rfl

/-- C6: the distance function is exactly symmetric in its two coordinate
pairs, and a pair at zero separation yields distance exactly 0. -/
theorem haversine_symm_and_zero :
    (∀ lat1 lon1 lat2 lon2 : ℝ,
      haversine_km lat1 lon1 lat2 lon2 = haversine_km lat2 lon2 lat1 lon1) ∧
    (∀ lat lon : ℝ, haversine_km lat lon lat lon = 0) := by
  constructor
  · intro lat1 lon1 lat2 lon2
    simp only [haversine_km]
    rw [sin_sq_sub_swap (deg2rad lat2) (deg2rad lat1),
      sin_sq_sub_swap (deg2rad lon2) (deg2rad lon1),
      mul_comm (Real.cos (deg2rad lat1)) (Real.cos (deg2rad lat2))]
  · intro lat lon
    simp [haversine_km]

/-! ## Python string primitives used by api_principal/app.py

Python `str.strip()`, `str.split(",")`, `str.replace("-", "")` and
`", ".join(...)` are modelled as executable functions over the character
list of a `String`. -/

def stripChars (cs : List Char) : List Char :=
  ((cs.dropWhile Char.isWhitespace).reverse.dropWhile Char.isWhitespace).reverse

/- Python `s.strip()`. -/
def pyStrip (s : String) : String := String.mk (stripChars s.data)

/- Python `s.split(",")`. -/
def pySplitComma (s : String) : List String :=
  (s.data.splitOn ',').map String.mk

/- Python `s.replace("-", "")`: removes every hyphen. -/
def removeHyphens (s : String) : String :=
  String.mk (s.data.filter (fun c => c != '-'))

/-! ## api_principal/app.py : endereco_para_query -/

/- The normalized address fields used from the ViaCEP response; absent JSON
   keys are `none`. -/
structure Endereco where
  logradouro : Option String
  bairro : Option String
  localidade : Option String
  uf : Option String
deriving DecidableEq, Repr

/- Source (api_principal/app.py, endereco_para_query): each field defaulted
   to "" via `or ""` (which also maps an empty string to ""), the constant
   "Brazil" appended, falsy (empty) components dropped, the rest joined with
   ", ". -/
def endereco_para_query (endereco : Endereco) : String :=
  let logradouro := endereco.logradouro.getD ""
  let bairro := endereco.bairro.getD ""
  let localidade := endereco.localidade.getD ""
  let uf := endereco.uf.getD ""
  let componentes := [logradouro, bairro, localidade, uf, "Brazil"]
  String.intercalate ", " (componentes.filter (fun c => c ≠ ""))

/- Modelled from the words of the spec for the query builder: concatenate, in
   fixed order, street, neighborhood, locality, region-code and the constant
   country token, dropping empty components, joined by the uniform
   delimiter ", ". `joinComma` places the delimiter between consecutive
   kept components. -/
def joinComma : List String → String
  | [] => ""
  | [x] => x
  | x :: y :: xs => x ++ ", " ++ joinComma (y :: xs)

def buildQuerySpec (e : Endereco) : String :=
  joinComma (([e.logradouro.getD "", e.bairro.getD "", e.localidade.getD "",
    e.uf.getD "", "Brazil"]).filter (fun c => c ≠ ""))

def tailJoin : List String → String
  | [] => ""
  | a :: as => ", " ++ a ++ tailJoin as

lemma intercalate_go_eq (l : List String) (acc : String) :
    String.intercalate.go acc ", " l = acc ++ tailJoin l := by
  induction l generalizing acc with
  | nil => simp [String.intercalate.go, tailJoin]
  | cons a as ih =>
    simp [String.intercalate.go, tailJoin, ih, String.append_assoc]

lemma joinComma_cons (x y : String) (xs : List String) :
    joinComma (x :: y :: xs) = x ++ tailJoin (y :: xs) := by
  induction xs generalizing x y with
  | nil => simp [joinComma, tailJoin, String.append_assoc]
  | cons z zs ih =>
    rw [joinComma, ih, tailJoin]
    simp [tailJoin, String.append_assoc]

lemma intercalate_eq_joinComma (l : List String) :
    String.intercalate ", " l = joinComma l := by
  match l with
  | [] => rfl
  | [x] => simp [String.intercalate, intercalate_go_eq, tailJoin, joinComma]
  | x :: y :: xs =>
    rw [String.intercalate, intercalate_go_eq, joinComma_cons]

/-- C7: the query builder concatenates street, neighborhood, locality,
region-code and the constant country token "Brazil" in that fixed order,
drops empty or absent components, joins the rest with ", " (it is total, so
it never fails); an all-empty address yields the bare token "Brazil", and an
address with only locality "São Paulo" and region "SP" yields
"São Paulo, SP, Brazil". -/
theorem endereco_para_query_spec :
    (∀ e : Endereco, endereco_para_query e = buildQuerySpec e) ∧
    endereco_para_query ⟨none, none, none, none⟩ = "Brazil" ∧
    endereco_para_query ⟨none, none, some "São Paulo", some "SP"⟩ =
      "São Paulo, SP, Brazil" := by
  refine ⟨fun e => ?_, by decide, by decide⟩
  unfold endereco_para_query buildQuerySpec
  exact intercalate_eq_joinComma _

/-! ## Python exceptions and remote-service oracles -/

/- The exception classes distinguished by the except clauses of the handler:
   ValueError (mapped to 400), requests.RequestException (mapped to 502) and
   any other exception such as TypeError (mapped to 500). -/
inductive PyExc where
  | valueError (msg : String)
  | requestException
  | typeError
deriving DecidableEq, Repr

/- One ViaCEP HTTP exchange: either a transport/timeout failure (requests
   raises a RequestException) or a completed response carrying an HTTP
   status, the "erro" flag of the JSON body, and the address fields. -/
inductive ViaCepResp where
  | transport
  | ok (status : Nat) (erro : Bool) (endereco : Endereco)
deriving DecidableEq, Repr

/- Source (api_principal/app.py, via_cep): normalize the CEP with
   `replace("-", "").strip()`, fetch; a non-200 status raises
   `ValueError("ViaCEP HTTP ...")`, an "erro"-flagged body raises
   `ValueError("CEP inválido no ViaCEP")`, otherwise the address is
   returned. -/
/- Source: `cep.replace("-", "").strip()`. -/
def normCep (cep : String) : String := pyStrip (removeHyphens cep)

def via_cep (fetch : String → ViaCepResp) (cep : String) : Except PyExc Endereco :=
  match fetch (normCep cep) with
  | .transport => .error .requestException
  | .ok status erro endereco =>
    if status ≠ 200 then .error (.valueError ("ViaCEP HTTP " ++ toString status))
    else if erro then .error (.valueError "CEP invalido no ViaCEP")
    else .ok endereco

/- Outcome of one Nominatim search exchange for a given query: a
   transport/timeout failure, a non-success status (raise_for_status raises
   HTTPError, a RequestException), an empty result list, or a first item
   with numeric lat/lon. -/
inductive SearchOutcome where
  | transport
  | httpError
  | empty
  | found (lat lon : ℚ)
deriving DecidableEq, Repr

/- Source (api_principal/app.py, geocode_osm._search): raises on transport
   errors and non-success statuses, returns None on an empty item list, and
   `(float(items[0]["lat"]), float(items[0]["lon"]))` otherwise. -/
def searchStep : SearchOutcome → Except PyExc (Option (ℚ × ℚ))
  | .transport => .error .requestException
  | .httpError => .error .requestException
  | .empty => .ok none
  | .found lat lon => .ok (some (lat, lon))

def geocodeNotFoundMsg : String :=
  "Nao foi possivel geocodificar o endereco informado."

/- Source: `partes = [p.strip() for p in query.split(",")]`. -/
def partesOf (query : String) : List String := (pySplitComma query).map pyStrip

/- Source: `cidade_uf = ", ".join(partes[-3:])` (the last three segments). -/
def fallbackQuery (query : String) : String :=
  String.intercalate ", " ((partesOf query).drop ((partesOf query).length - 3))

/- Source (api_principal/app.py, geocode_osm): first attempt with the full
   query; on an empty result, if at least 3 trimmed comma-separated segments
   exist, one fallback attempt with the last three rejoined; otherwise
   `ValueError` ("Não foi possível geocodificar…"). -/
def geocode_osm (search : String → SearchOutcome) (query : String) :
    Except PyExc (ℚ × ℚ) :=
  match searchStep (search query) with
  | .error e => .error e
  | .ok (some coords) => .ok coords
  | .ok none =>
    if 3 ≤ (partesOf query).length then
      match searchStep (search (fallbackQuery query)) with
      | .error e => .error e
      | .ok (some coords) => .ok coords
      | .ok none => .error (.valueError geocodeNotFoundMsg)
    else .error (.valueError geocodeNotFoundMsg)

/-- C2: geocode_osm submits the full query first and returns its match when
one exists; when the full query yields no match and the query has at least 3
trimmed comma-separated segments, the result is determined by one fallback
lookup at exactly the last three segments rejoined with ", ", failing with
the GeocodeNotFound-class ValueError if that too yields no match; with fewer
than 3 segments it fails with the same error — never an empty result. -/
theorem geocode_osm_fallback (search : String → SearchOutcome) (query : String) :
    (∀ lat lon, search query = .found lat lon →
      geocode_osm search query = .ok (lat, lon)) ∧
    (search query = .empty → 3 ≤ (partesOf query).length →
      geocode_osm search query =
        match search (fallbackQuery query) with
        | .found lat lon => .ok (lat, lon)
        | .empty => .error (.valueError geocodeNotFoundMsg)
        | .httpError => .error .requestException
        | .transport => .error .requestException) ∧
    (search query = .empty → (partesOf query).length < 3 →
      geocode_osm search query = .error (.valueError geocodeNotFoundMsg)) := by
  refine ⟨fun lat lon h => ?_, fun h h3 => ?_, fun h h3 => ?_⟩
  · simp [geocode_osm, h, searchStep]
  · simp only [geocode_osm, h, searchStep, if_pos h3]
    cases search (fallbackQuery query) <;> simp [searchStep]
  · simp [geocode_osm, h, searchStep, Nat.not_le.mpr h3]

def wSearchC2 : String → SearchOutcome :=
  fun q => if q = "B, C, D" then .found 1 2 else .empty

theorem geocode_osm_fallback_witness :
    wSearchC2 "A, B, C, D" = .empty ∧ 3 ≤ (partesOf "A, B, C, D").length ∧
    geocode_osm wSearchC2 "A, B, C, D" = .ok (1, 2) := by
  refine ⟨by decide, by decide, ?_⟩
  have h := (geocode_osm_fallback wSearchC2 "A, B, C, D").2.1 (by decide) (by decide)
  have h2 : wSearchC2 (fallbackQuery "A, B, C, D") = .found 1 2 := by decide
  rw [h, h2]

/-! ## api_principal/app.py : the POST /distancia-por-cep pipeline -/

/- A row of the `consultas` table.  Coordinates and the distance are the
   numeric JSON values exchanged with the services, modelled as rationals. -/
structure Consulta where
  id : Nat
  cep_origem : String
  cep_destino : String
  lat1 : ℚ
  lon1 : ℚ
  lat2 : ℚ
  lon2 : ℚ
  distancia_km : ℚ
  criado_em : String
  observacoes : Option String
deriving DecidableEq, Repr

/- A JSON value in the position of `resultado.get("distancia_km")`: a
   number, a string paired with what Python float() yields on it (none when
   it does not parse), or null (dict.get returns None when the key is
   absent). -/
inductive JsonVal where
  | num (q : ℚ)
  | str (s : String) (parsed : Option ℚ)
  | null
deriving DecidableEq, Repr

/- Python float(x): numbers convert, strings parse or raise ValueError,
   None raises TypeError. -/
def pyFloat : JsonVal → Except PyExc ℚ
  | .num q => .ok q
  | .str _ (some q) => .ok q
  | .str _ none => .error (.valueError "could not convert string to float")
  | .null => .error .typeError

/- One exchange with the api_secundaria delegate: a transport failure or a
   response with an HTTP status and the distancia_km field of the body. -/
inductive SecundariaResp where
  | transport
  | ok (status : Nat) (distancia_km : JsonVal)
deriving DecidableEq, Repr

/- The remote world as one request sees it: ViaCEP keyed by normalized CEP,
   Nominatim keyed by query, and the delegate keyed by the coordinates it is
   sent. -/
structure Env where
  viaCep : String → ViaCepResp
  search : String → SearchOutcome
  secundaria : ℚ → ℚ → ℚ → ℚ → SecundariaResp

/- The HTTP outcome of the endpoint: a success response carrying the
   inserted record, or an error response with a status code and message. -/
inductive PipeResp where
  | success (novo : Consulta)
  | failure (status : Nat) (msg : String)
deriving DecidableEq, Repr

def statusOf : PipeResp → Nat
  | .success _ => 200
  | .failure s _ => s

/- The except clauses of distancia_por_cep: ValueError → 400 with the
   exception text, RequestException → 502, anything else → 500. -/
def excResp : PyExc → PipeResp
  | .valueError m => .failure 400 m
  | .requestException => .failure 502 "Falha ao consultar servicos externos."
  | .typeError => .failure 500 "Erro inesperado"

/- SQLite AUTOINCREMENT: the next id is one more than the largest
   assigned. -/
def nextId (store : List Consulta) : Nat :=
  (store.map Consulta.id).foldr max 0 + 1

structure ReqBody where
  origem : String
  destino : String
  observacoes : Option String
deriving DecidableEq, Repr

def msgMissingInput : String := "Informe origem e destino (CEPs)."

/- Source (api_principal/app.py, distancia_por_cep): strip both CEPs, 400
   when one is missing; resolve both via ViaCEP, geocode both queries, POST
   both coordinate pairs to the delegate (non-200 → 502 with the status in
   the message), float() the distancia_km field, and only then INSERT the
   row.  The store is returned unchanged on every failure path because the
   INSERT is the final step. -/
def distancia_por_cep (env : Env) (body : ReqBody) (store : List Consulta)
    (now : String) : PipeResp × List Consulta :=
  let cep_origem := pyStrip body.origem
  let cep_destino := pyStrip body.destino
  if cep_origem = "" ∨ cep_destino = "" then
    (.failure 400 msgMissingInput, store)
  else
    match via_cep env.viaCep cep_origem with
    | .error e => (excResp e, store)
    | .ok end_origem =>
      match via_cep env.viaCep cep_destino with
      | .error e => (excResp e, store)
      | .ok end_destino =>
        match geocode_osm env.search (endereco_para_query end_origem) with
        | .error e => (excResp e, store)
        | .ok (lat1, lon1) =>
          match geocode_osm env.search (endereco_para_query end_destino) with
          | .error e => (excResp e, store)
          | .ok (lat2, lon2) =>
            match env.secundaria lat1 lon1 lat2 lon2 with
            | .transport => (excResp .requestException, store)
            | .ok status dkm =>
              if status ≠ 200 then
                (.failure 502
                  ("Falha ao calcular distancia na API Secundaria: HTTP " ++
                    toString status), store)
              else
                match pyFloat dkm with
                | .error e => (excResp e, store)
                | .ok d =>
                  let novo : Consulta :=
                    ⟨nextId store, cep_origem, cep_destino, lat1, lon1,
                      lat2, lon2, d, now, body.observacoes⟩
                  (.success novo, store ++ [novo])

lemma distancia_snd (env : Env) (body : ReqBody) (store : List Consulta)
    (now : String) :
    (distancia_por_cep env body store now).2 =
      (match (distancia_por_cep env body store now).1 with
       | .success novo => store ++ [novo]
       | .failure _ _ => store) := by
  by_cases h : pyStrip body.origem = "" ∨ pyStrip body.destino = ""
  · simp [distancia_por_cep, h]
  rcases hv1 : via_cep env.viaCep (pyStrip body.origem) with e | e1
  · cases e <;> simp [distancia_por_cep, h, hv1, excResp]
  rcases hv2 : via_cep env.viaCep (pyStrip body.destino) with e | e2
  · cases e <;> simp [distancia_por_cep, h, hv1, hv2, excResp]
  rcases hg1 : geocode_osm env.search (endereco_para_query e1) with e | ⟨la1, lo1⟩
  · cases e <;> simp [distancia_por_cep, h, hv1, hv2, hg1, excResp]
  rcases hg2 : geocode_osm env.search (endereco_para_query e2) with e | ⟨la2, lo2⟩
  · cases e <;> simp [distancia_por_cep, h, hv1, hv2, hg1, hg2, excResp]
  rcases hs : env.secundaria la1 lo1 la2 lo2 with _ | ⟨status, dkm⟩
  · simp [distancia_por_cep, h, hv1, hv2, hg1, hg2, hs, excResp]
  by_cases hst : status = 200
  · subst hst
    rcases hf : pyFloat dkm with e | d
    · cases e <;>
        simp [distancia_por_cep, h, hv1, hv2, hg1, hg2, hs, hf, excResp]
    · simp [distancia_por_cep, h, hv1, hv2, hg1, hg2, hs, hf]
  · simp [distancia_por_cep, h, hv1, hv2, hg1, hg2, hs, hst, excResp]

/-- C3: POST /distancia-por-cep fails with the MissingInput-class 400 error
whenever either CEP is empty after trimming, and then the outcome does not
depend on the remote environment (so no external call can have mattered); on
any failure response the store is returned unchanged, a record being
appended only on a success response. -/
theorem distancia_missing_input_no_persist (env : Env) (body : ReqBody)
    (store : List Consulta) (now : String) :
    ((pyStrip body.origem = "" ∨ pyStrip body.destino = "") →
      (distancia_por_cep env body store now).1 = .failure 400 msgMissingInput ∧
      (distancia_por_cep env body store now).2 = store ∧
      ∀ env2 : Env, distancia_por_cep env2 body store now =
        distancia_por_cep env body store now) ∧
    (∀ s m, (distancia_por_cep env body store now).1 = .failure s m →
      (distancia_por_cep env body store now).2 = store) ∧
    (∀ novo, (distancia_por_cep env body store now).1 = .success novo →
      (distancia_por_cep env body store now).2 = store ++ [novo]) := by
  refine ⟨fun h => ⟨?_, ?_, fun env2 => ?_⟩, fun s m hf => ?_, fun novo hsucc => ?_⟩
  · simp [distancia_por_cep, h]
  · simp [distancia_por_cep, h]
  · simp [distancia_por_cep, h]
  · rw [distancia_snd, hf]
  · rw [distancia_snd, hsucc]

def envW3 : Env :=
  ⟨fun _ => .transport, fun _ => .empty, fun _ _ _ _ => .transport⟩

theorem distancia_missing_input_no_persist_witness :
    (distancia_por_cep envW3 ⟨"", "20040-020", none⟩ [] "t").1 =
      .failure 400 msgMissingInput ∧
    (distancia_por_cep envW3 ⟨"", "20040-020", none⟩ [] "t").2 = [] := by
  have h := (distancia_missing_input_no_persist envW3
    ⟨"", "20040-020", none⟩ [] "t").1 (Or.inl (by decide))
  exact ⟨h.1, h.2.1⟩

def envC1 : Env :=
  ⟨fun _ => .ok 503 false ⟨none, none, none, none⟩, fun _ => .empty,
   fun _ _ _ _ => .transport⟩

def bodyC1 : ReqBody := ⟨"01001-000", "20040-020", none⟩

/-- C1 counterexample: with ViaCEP responding HTTP 503 (a non-success
status) to the origin lookup, the endpoint answers 400 carrying the
ValueError text, not the 502 the claim requires for every non-success
status. -/
theorem viaCep_bad_status_gives_400 :
    (distancia_por_cep envC1 bodyC1 [] "t").1 =
      PipeResp.failure 400 "ViaCEP HTTP 503" := by decide

/-- C1 amended: a ViaCEP timeout or transport error yields the 502
UpstreamUnavailable-class error, while a completed ViaCEP response with a
non-success HTTP status raises ValueError and is mapped to the
InvalidPostalCode-class 400 error, exactly like the nonexistent-code
flag. -/
theorem viaCep_error_status_mapping (env : Env) (body : ReqBody)
    (store : List Consulta) (now : String)
    (h1 : pyStrip body.origem ≠ "") (h2 : pyStrip body.destino ≠ "") :
    (env.viaCep (normCep (pyStrip body.origem)) = .transport →
      (distancia_por_cep env body store now).1 =
        .failure 502 "Falha ao consultar servicos externos.") ∧
    (∀ s er e, s ≠ 200 →
      env.viaCep (normCep (pyStrip body.origem)) = .ok s er e →
      (distancia_por_cep env body store now).1 =
        .failure 400 ("ViaCEP HTTP " ++ toString s)) ∧
    (∀ e, env.viaCep (normCep (pyStrip body.origem)) = .ok 200 true e →
      (distancia_por_cep env body store now).1 =
        .failure 400 "CEP invalido no ViaCEP") ∧
    (∀ e0, env.viaCep (normCep (pyStrip body.origem)) = .ok 200 false e0 →
      ((env.viaCep (normCep (pyStrip body.destino)) = .transport →
        (distancia_por_cep env body store now).1 =
          .failure 502 "Falha ao consultar servicos externos.") ∧
      (∀ s er e, s ≠ 200 →
        env.viaCep (normCep (pyStrip body.destino)) = .ok s er e →
        (distancia_por_cep env body store now).1 =
          .failure 400 ("ViaCEP HTTP " ++ toString s)) ∧
      (∀ e, env.viaCep (normCep (pyStrip body.destino)) = .ok 200 true e →
        (distancia_por_cep env body store now).1 =
          .failure 400 "CEP invalido no ViaCEP"))) := by
  have hor : ¬(pyStrip body.origem = "" ∨ pyStrip body.destino = "") := by
    simp [h1, h2]
  refine ⟨fun h => ?_, fun s er e hs h => ?_, fun e h => ?_,
    fun e0 h0 => ⟨fun h => ?_, fun s er e hs h => ?_, fun e h => ?_⟩⟩
  · simp [distancia_por_cep, hor, via_cep, h, excResp]
  · simp [distancia_por_cep, hor, via_cep, h, hs, excResp]
  · simp [distancia_por_cep, hor, via_cep, h, excResp]
  · simp [distancia_por_cep, hor, via_cep, h0, h, excResp]
  · simp [distancia_por_cep, hor, via_cep, h0, h, hs, excResp]
  · simp [distancia_por_cep, hor, via_cep, h0, h, excResp]

theorem viaCep_error_status_mapping_witness :
    (distancia_por_cep envC1 bodyC1 [] "t").1 =
      .failure 400 ("ViaCEP HTTP " ++ toString 503) :=
  (viaCep_error_status_mapping envC1 bodyC1 [] "t" (by decide) (by decide)).2.1
    503 false ⟨none, none, none, none⟩ (by decide) (by decide)

def envC4 : Env :=
  ⟨fun _ => .ok 200 false ⟨none, none, none, none⟩, fun _ => .found 1 2,
   fun _ _ _ _ => .ok 200 .null⟩

/-- C4 counterexample: with both CEPs resolving and both geocodes
succeeding, a delegate response of HTTP 200 whose body lacks the
distancia_km field (so `float(None)` raises TypeError) makes the endpoint
answer 500 — not the 502 the claim requires for a malformed body. -/
theorem secundaria_malformed_body_gives_500 :
    (distancia_por_cep envC4 bodyC1 [] "t").1 =
      PipeResp.failure 500 "Erro inesperado" := by decide

/-- C4 amended: once both CEPs resolve and both geocodes succeed, a
transport error towards the delegate or a delegate response with a
non-success HTTP status is surfaced as 502; a malformed 200 body is not: a
non-numeric string in distancia_km raises ValueError mapped to 400 and a
missing (null) distancia_km raises TypeError mapped to 500, while a numeric
distancia_km yields the success response. -/
theorem secundaria_response_mapping (env : Env) (body : ReqBody)
    (store : List Consulta) (now : String)
    (h1 : pyStrip body.origem ≠ "") (h2 : pyStrip body.destino ≠ "")
    (e1 e2 : Endereco) (la1 lo1 la2 lo2 : ℚ)
    (hv1 : via_cep env.viaCep (pyStrip body.origem) = .ok e1)
    (hv2 : via_cep env.viaCep (pyStrip body.destino) = .ok e2)
    (hg1 : geocode_osm env.search (endereco_para_query e1) = .ok (la1, lo1))
    (hg2 : geocode_osm env.search (endereco_para_query e2) = .ok (la2, lo2)) :
    (env.secundaria la1 lo1 la2 lo2 = .transport →
      (distancia_por_cep env body store now).1 =
        .failure 502 "Falha ao consultar servicos externos.") ∧
    (∀ s d, s ≠ 200 → env.secundaria la1 lo1 la2 lo2 = .ok s d →
      (distancia_por_cep env body store now).1 =
        .failure 502
          ("Falha ao calcular distancia na API Secundaria: HTTP " ++
            toString s)) ∧
    (∀ s, env.secundaria la1 lo1 la2 lo2 = .ok 200 (.str s none) →
      (distancia_por_cep env body store now).1 =
        .failure 400 "could not convert string to float") ∧
    (env.secundaria la1 lo1 la2 lo2 = .ok 200 .null →
      (distancia_por_cep env body store now).1 =
        .failure 500 "Erro inesperado") ∧
    (∀ q, env.secundaria la1 lo1 la2 lo2 = .ok 200 (.num q) →
      (distancia_por_cep env body store now).1 =
        .success ⟨nextId store, pyStrip body.origem, pyStrip body.destino,
          la1, lo1, la2, lo2, q, now, body.observacoes⟩) := by
  have hor : ¬(pyStrip body.origem = "" ∨ pyStrip body.destino = "") := by
    simp [h1, h2]
  refine ⟨fun h => ?_, fun s d hs h => ?_, fun s h => ?_, fun h => ?_,
    fun q h => ?_⟩
  · simp [distancia_por_cep, hor, hv1, hv2, hg1, hg2, h, excResp]
  · simp [distancia_por_cep, hor, hv1, hv2, hg1, hg2, h, hs, excResp]
  · simp [distancia_por_cep, hor, hv1, hv2, hg1, hg2, h, pyFloat, excResp]
  · simp [distancia_por_cep, hor, hv1, hv2, hg1, hg2, h, pyFloat, excResp]
  · simp [distancia_por_cep, hor, hv1, hv2, hg1, hg2, h, pyFloat]

theorem secundaria_response_mapping_witness :
    (distancia_por_cep envC4 bodyC1 [] "t").1 =
      PipeResp.failure 500 "Erro inesperado" :=
  (secundaria_response_mapping envC4 bodyC1 [] "t" (by decide) (by decide)
    ⟨none, none, none, none⟩ ⟨none, none, none, none⟩ 1 2 1 2
    rfl rfl rfl rfl).2.2.2.1 rfl

/-! ## GET /consultas : listing with clamping -/

/- Source: `limit = max(1, min(limit, 200))`, default 50. -/
def clampLimit (limit : Int) : Int := max 1 (min limit 200)

/- Source: `offset = max(0, offset)`, default 0. -/
def clampOffset (offset : Int) : Int := max 0 offset

/- SQL `ORDER BY id DESC`: rows ordered by descending id. -/
def ordById (a b : Consulta) : Prop := b.id ≤ a.id

instance : DecidableRel ordById := fun a b => Nat.decLe b.id a.id

instance : IsTotal Consulta ordById := ⟨fun a b => Nat.le_total b.id a.id⟩

instance : IsTrans Consulta ordById :=
  ⟨fun _ _ _ hab hbc => Nat.le_trans hbc hab⟩

def sortDescById (store : List Consulta) : List Consulta :=
  store.insertionSort ordById

/- Source (api_principal/app.py, listar_consultas): clamp limit and offset,
   then `SELECT ... ORDER BY id DESC LIMIT ? OFFSET ?`.  A missing query
   parameter is the stated default. -/
def listar_consultas (limitParam offsetParam : Option Int)
    (store : List Consulta) : List Consulta :=
  let limit := clampLimit (limitParam.getD 50)
  let offset := clampOffset (offsetParam.getD 0)
  ((sortDescById store).drop offset.toNat).take limit.toNat

lemma sortDescById_pairwise (store : List Consulta) :
    List.Pairwise ordById (sortDescById store) :=
  List.sorted_insertionSort ordById store

lemma sortDescById_length (store : List Consulta) :
    (sortDescById store).length = store.length :=
  (List.perm_insertionSort ordById store).length_eq

/-- C8: GET /consultas returns records ordered newest-id-first; the
effective limit is the requested one clamped into [1, 200] (50 when the
parameter is absent, 1 for limit=0, 200 for limit=9999), the effective
offset is clamped to be nonnegative, and the returned page never exceeds
200 records (50 by default, exactly 1 for limit=0 on a nonempty store). -/
theorem listar_consultas_spec (limitParam offsetParam : Option Int)
    (store : List Consulta) :
    (1 ≤ clampLimit (limitParam.getD 50) ∧
      clampLimit (limitParam.getD 50) ≤ 200) ∧
    clampLimit 50 = 50 ∧ clampLimit 0 = 1 ∧ clampLimit 9999 = 200 ∧
    0 ≤ clampOffset (offsetParam.getD 0) ∧
    (listar_consultas limitParam offsetParam store).length ≤ 200 ∧
    (limitParam = none →
      (listar_consultas limitParam offsetParam store).length ≤ 50) ∧
    (limitParam = some 0 → offsetParam = none → store ≠ [] →
      (listar_consultas limitParam offsetParam store).length = 1) ∧
    List.Pairwise ordById (listar_consultas limitParam offsetParam store) := by
  have hclamp : ∀ l : Int, 1 ≤ clampLimit l ∧ clampLimit l ≤ 200 := by
    intro l
    exact ⟨le_max_left 1 _, max_le (by norm_num) (min_le_right l 200)⟩
  have hlen : ∀ lp op, (listar_consultas lp op store).length ≤
      (clampLimit (lp.getD 50)).toNat := by
    intro lp op
    simp only [listar_consultas]
    exact List.length_take_le _ _
  refine ⟨hclamp _, by decide, by decide, by decide, le_max_left 0 _,
    ?_, fun hnone => ?_, fun h0 hoff hne => ?_, ?_⟩
  · exact (hlen limitParam offsetParam).trans
      (Int.toNat_le.mpr (hclamp _).2)
  · subst hnone
    exact (hlen none offsetParam).trans (by decide)
  · subst h0; subst hoff
    have hpos : 0 < (sortDescById store).length := by
      rw [sortDescById_length]
      exact List.length_pos.mpr hne
    simp [listar_consultas, clampLimit, clampOffset, List.length_take]
    omega
  · refine List.Pairwise.sublist ?_ (sortDescById_pairwise store)
    exact (List.take_sublist _ _).trans (List.drop_sublist _ _)

def cW8a : Consulta := ⟨1, "a", "b", 0, 0, 0, 0, 0, "t", none⟩
def cW8b : Consulta := ⟨2, "c", "d", 0, 0, 0, 0, 0, "t", none⟩

theorem listar_consultas_spec_witness :
    (listar_consultas (some 0) none [cW8a, cW8b]).length = 1 ∧
    clampLimit 0 = 1 ∧ clampLimit 9999 = 200 := by
  obtain ⟨-, -, h0, h9999, -, -, -, hone, -⟩ :=
    listar_consultas_spec (some 0) none [cW8a, cW8b]
  exact ⟨hone rfl rfl (by simp), h0, h9999⟩

/-! ## PUT /consultas/(id) : updating the notes field -/

/- The effect of `UPDATE consultas SET observacoes = ? WHERE id = ?` on one
   row. -/
def updObs (cid : Nat) (obs : Option String) (c : Consulta) : Consulta :=
  if c.id = cid then { c with observacoes := obs } else c

/- Source (api_principal/app.py, atualizar_consulta): run the UPDATE; when
   it matched no row (rowcount 0) answer 404, otherwise SELECT and return
   the updated row. -/
def atualizar_consulta (store : List Consulta) (cid : Nat)
    (obs : Option String) : Option Consulta × List Consulta :=
  let updated := store.map (updObs cid obs)
  if store.all (fun c => c.id != cid) then (none, updated)
  else (updated.find? (fun c => c.id == cid), updated)

lemma atualizar_snd (store : List Consulta) (cid : Nat) (obs : Option String) :
    (atualizar_consulta store cid obs).2 = store.map (updObs cid obs) := by
  unfold atualizar_consulta
  split <;> rfl

/-- C9: PUT /consultas/(id) replaces only the observacoes field of the
record with the given id, leaving every other field of every record — id,
postal codes, the two coordinate pairs, distance, creation timestamp —
unchanged; when no stored record has that id it answers the NotFound-class
404 (response none) and leaves the store unchanged; when some record has
the id, a record is returned and it is the stored one with only its notes
replaced. -/
theorem atualizar_consulta_spec (store : List Consulta) (cid : Nat)
    (obs : Option String) :
    ((∀ c ∈ store, c.id ≠ cid) →
      (atualizar_consulta store cid obs).1 = none ∧
      (atualizar_consulta store cid obs).2 = store) ∧
    (atualizar_consulta store cid obs).2.length = store.length ∧
    (∀ i (h1 : i < store.length)
        (h2 : i < (atualizar_consulta store cid obs).2.length),
      (atualizar_consulta store cid obs).2.get ⟨i, h2⟩ =
        { store.get ⟨i, h1⟩ with
          observacoes := if (store.get ⟨i, h1⟩).id = cid then obs
            else (store.get ⟨i, h1⟩).observacoes }) ∧
    (∀ c, (atualizar_consulta store cid obs).1 = some c →
      c.id = cid ∧ c.observacoes = obs ∧
      ∃ c0, c0 ∈ store ∧ c0.id = cid ∧ c = { c0 with observacoes := obs }) ∧
    ((∃ c ∈ store, c.id = cid) →
      ∃ c, (atualizar_consulta store cid obs).1 = some c) := by
  refine ⟨fun hnone => ?_, ?_, fun i h1 h2 => ?_, fun c hc => ?_, fun hex => ?_⟩
  · have hall : store.all (fun c => c.id != cid) = true := by
      simp only [List.all_eq_true, bne_iff_ne]
      exact hnone
    constructor
    · simp [atualizar_consulta, hall]
    · rw [atualizar_snd]
      have : ∀ c ∈ store, updObs cid obs c = id c := by
        intro c hc
        simp [updObs, hnone c hc]
      rw [List.map_congr_left this, List.map_id]
  · rw [atualizar_snd, List.length_map]
  · rw [List.get_of_eq (atualizar_snd store cid obs)]
    simp only [List.get_eq_getElem, List.getElem_map]
    by_cases h : (store.get ⟨i, h1⟩).id = cid <;>
      simp [updObs, List.get_eq_getElem] at h ⊢ <;> simp [h]
  · have hfind : (atualizar_consulta store cid obs).1 = some c →
        (store.map (updObs cid obs)).find? (fun c => c.id == cid) = some c := by
      unfold atualizar_consulta
      split
      · intro h; exact absurd h (by simp)
      · intro h; exact h
    have hf := hfind hc
    have hid : c.id = cid := by
      have := List.find?_some hf
      simpa using this
    have hmem : c ∈ store.map (updObs cid obs) := List.mem_of_find?_eq_some hf
    obtain ⟨c0, hc0, hEq⟩ := List.mem_map.mp hmem
    refine ⟨hid, ?_, c0, hc0, ?_, ?_⟩
    · by_cases h : c0.id = cid
      · rw [← hEq]; simp [updObs, h]
      · exfalso
        rw [← hEq] at hid
        simp [updObs, h] at hid
    · by_cases h : c0.id = cid
      · exact h
      · exfalso
        rw [← hEq] at hid
        simp [updObs, h] at hid
    · by_cases h : c0.id = cid
      · rw [← hEq]; simp [updObs, h]
      · exfalso
        rw [← hEq] at hid
        simp [updObs, h] at hid
  · obtain ⟨c, hc, hcid⟩ := hex
    have hall : store.all (fun c => c.id != cid) = false := by
      simp only [List.all_eq_false]
      exact ⟨c, hc, by simp [hcid]⟩
    have hsome : ((store.map (updObs cid obs)).find?
        (fun c => c.id == cid)).isSome := by
      rw [List.find?_isSome]
      exact ⟨updObs cid obs c, List.mem_map_of_mem _ hc, by
        simp [updObs, hcid]⟩
    obtain ⟨r, hr⟩ := Option.isSome_iff_exists.mp hsome
    exact ⟨r, by simp [atualizar_consulta, hall, hr]⟩

def cW9 : Consulta := ⟨2, "a", "b", 0, 0, 0, 0, 0, "t", some "x"⟩

theorem atualizar_consulta_spec_witness :
    (atualizar_consulta [cW9] 1 (some "novo")).1 = none ∧
    (atualizar_consulta [cW9] 1 (some "novo")).2 = [cW9] ∧
    (atualizar_consulta [cW9] 1 (some "novo")).2.length = 1 := by
  obtain ⟨h404, hlen, -, -, -⟩ := atualizar_consulta_spec [cW9] 1 (some "novo")
  have h := h404 (by decide)
  exact ⟨h.1, h.2, hlen.trans (by decide)⟩

/- The parsed JSON body of a PUT request; `observacoes = none` models a body
   that omits the key. -/
structure PutBody where
  observacoes : Option String
deriving DecidableEq, Repr

/- Source (api_principal/app.py, atualizar_consulta route): `body =
   request.get_json(silent=True) or {}` (None for an empty or unparsable
   body), then `observacoes = body.get("observacoes")` — None whenever the
   key is absent — and the UPDATE always sets the column to this value. -/
def put_consulta (reqBody : Option PutBody) (store : List Consulta)
    (cid : Nat) : Option Consulta × List Consulta :=
  atualizar_consulta store cid ((reqBody.getD ⟨none⟩).observacoes)

/-- C10 (implicit): a PUT /consultas/(id) request whose JSON body omits the
observacoes key — including an absent or unparsable body — overwrites the
notes of the stored record with null (none) rather than leaving the previous
notes unchanged: every record in the resulting store carrying the targeted
id has observacoes = none, whatever it held before. -/
theorem put_missing_key_nulls_notes (reqBody : Option PutBody)
    (store : List Consulta) (cid : Nat)
    (hbody : reqBody = none ∨ reqBody = some ⟨none⟩) :
    ∀ r ∈ (put_consulta reqBody store cid).2,
      r.id = cid → r.observacoes = none := by
  have hobs : (reqBody.getD ⟨none⟩).observacoes = none := by
    rcases hbody with h | h <;> simp [h]
  intro r hr hid
  rw [put_consulta, hobs, atualizar_snd] at hr
  obtain ⟨c0, hc0, hEq⟩ := List.mem_map.mp hr
  by_cases h : c0.id = cid
  · rw [← hEq]
    simp [updObs, h]
  · exfalso
    rw [← hEq] at hid
    simp [updObs, h] at hid

def cW10 : Consulta := ⟨1, "a", "b", 0, 0, 0, 0, 0, "t", some "velha"⟩

theorem put_missing_key_nulls_notes_witness :
    (updObs 1 none cW10).observacoes = none := by
  have h := put_missing_key_nulls_notes none [cW10] 1 (Or.inl rfl)
  exact h (updObs 1 none cW10) (by decide) (by decide)

end Mvp2
